import Mathlib

/-!
Shallow embedding of the novel-generation pipeline in `app.py`
(classes `OutlineReviewer`, `CharacterManager`, `NovelWriter`) together
with the external library behaviour the code relies on:

* `nltk` components (`word_tokenize`, `stopwords`, `PorterStemmer`) are
  deterministic black boxes; they are modelled as an opaque parameter
  record `NLP`, as the specification treats them ("deterministic given
  fixed stop-word and stemming rules").
* `sklearn.feature_extraction.text.TfidfVectorizer()` with default
  settings is modelled concretely: documents are lower-cased, tokenized
  by the default token pattern (runs of word characters of length at
  least two), term frequencies are raw counts, the smooth idf of the
  two-document corpus is `log((1+2)/(1+df)) + 1`, rows are l2-normalised
  (a zero row stays zero), and an empty vocabulary raises `ValueError`.
* `sklearn.metrics.pairwise.cosine_similarity` re-normalises rows
  (zero rows stay zero) and returns the dot product.
* Python's `re.search` on the four title patterns is modelled by a small
  backtracking matcher specialised to the constructs those patterns use
  (literals, greedy `\s*`/`\s+`/`\d+`, one capturing group of the form
  `(c+)` for a character class `c`, and the tail `(?:\n|$)`).
* Python scalars that flow through `Character.first_appearance` /
  `last_appearance` are either `int` or `str`; they are modelled by
  `PyVal`.  Python truthiness, `str.lower`, `str.strip`, `str.isalpha`,
  substring tests and `int(str)` conversion are modelled by the `py*`
  helpers below (whitespace is Lean's `Char.isWhitespace`, and `int()`
  is modelled on optionally signed digit strings with surrounding
  whitespace, the shapes that occur in the pipeline).

Floats are modelled by real numbers; the similarity threshold `0.7` is
the exact rational `7/10`.
-/

/-- Model of Python `str.lower` (ASCII case mapping). -/
def pyLower (s : String) : String := String.mk (s.data.map Char.toLower)

/-- Model of Python `str.strip`: drop whitespace from both ends. -/
def pyStrip (s : String) : String :=
  String.mk (((s.data.dropWhile Char.isWhitespace).reverse.dropWhile Char.isWhitespace).reverse)

/-- Model of Python `str.isalpha`: nonempty and every character alphabetic. -/
def pyIsAlpha (s : String) : Bool := !s.data.isEmpty && s.data.all Char.isAlpha

/-- Scan for an occurrence of `pat` at any position of the list. -/
def listFind (pat : List Char) : List Char → Bool
  | [] => pat.isPrefixOf []
  | c :: t => pat.isPrefixOf (c :: t) || listFind pat t

/-- Model of Python `sub in s` on strings. -/
def pyContains (s sub : String) : Bool := listFind sub.data s.data

/-- Model of Python `int(s)` on a string: optional surrounding whitespace,
optional sign, then at least one digit; `none` models `ValueError`. -/
def pyStrToInt (s : String) : Option Int :=
  let t := (s.data.dropWhile Char.isWhitespace).reverse.dropWhile Char.isWhitespace |>.reverse
  let core := match t with
    | '-' :: rest => some (true, rest)
    | '+' :: rest => some (false, rest)
    | rest => some (false, rest)
  match core with
  | some (neg, ds) =>
    if ds = [] || !ds.all Char.isDigit then none
    else
      let n : Nat := ds.foldl (fun a c => 10 * a + (c.toNat - 48)) 0
      some (if neg then -(n : Int) else (n : Int))
  | none => none

/-- Model of a Python scalar that is either an `int` or a `str`. -/
inductive PyVal where
  | int (n : Int)
  | str (s : String)
deriving DecidableEq

/-- Python truthiness of a `PyVal` (`0` and `""` are falsy). -/
def PyVal.truthy : PyVal → Bool
  | .int n => n != 0
  | .str s => !s.data.isEmpty

/-- Model of Python `int(v)` on a `PyVal`; `none` models `ValueError`. -/
def PyVal.toIntOpt : PyVal → Option Int
  | .int n => some n
  | .str s => pyStrToInt s

/-- Chapter-number valuation used by the spec to compare appearance
fields: a value that does not parse as an integer counts as unset (0). -/
def chapNum (v : PyVal) : Int := v.toIntOpt.getD 0

/-- Python errors the embedded code can raise. -/
inductive PyErr where
  | nameError
  | valueError
deriving DecidableEq

/-! ## Regex engine for the four title patterns -/

/-- Character classes used by the title patterns. -/
inductive Cls where
  | space
  | digit
  | dot
  | notQuote
deriving DecidableEq

/-- Membership of a character in a class (`\s`, `\d`, `.`, `[^"]`). -/
def Cls.mem : Cls → Char → Bool
  | .space, c => c.isWhitespace
  | .digit, c => c.isDigit
  | .dot, c => c != '\n'
  | .notQuote, c => c != '"'

/-- Regex items: a literal, greedy `c*`, greedy `c+`, the single
capturing group `(c+)`, and the tail alternation `(?:\n|$)`. -/
inductive RE where
  | lit (s : List Char)
  | starC (c : Cls)
  | plusC (c : Cls)
  | grpPlus (c : Cls)
  | eol
deriving DecidableEq

/-- Length of the maximal prefix of `s` inside class `c`. -/
def maxRun (c : Cls) (s : List Char) : Nat := (s.takeWhile (Cls.mem c)).length

/-- Try candidate repetition counts from `n` down to `lo`, returning the
first success; this is the greedy backtracking order of Python `re`. -/
def tryDown (f : Nat → Option (List Char)) (lo : Nat) : Nat → Option (List Char)
  | 0 => if lo = 0 then f 0 else none
  | n + 1 =>
    if lo ≤ n + 1 then
      match f (n + 1) with
      | some r => some r
      | none => tryDown f lo n
    else none

/-- Backtracking matcher: does the item sequence match a prefix of `s`?
On success, return the text captured by the group (empty if none). -/
def mtch : List RE → List Char → Option (List Char) → Option (List Char)
  | [], _, cap => some (cap.getD [])
  | .lit t :: rest, s, cap =>
    if s.take t.length = t then mtch rest (s.drop t.length) cap else none
  | .starC c :: rest, s, cap =>
    tryDown (fun n => mtch rest (s.drop n) cap) 0 (maxRun c s)
  | .plusC c :: rest, s, cap =>
    if maxRun c s = 0 then none
    else tryDown (fun n => mtch rest (s.drop n) cap) 1 (maxRun c s)
  | .grpPlus c :: rest, s, _cap =>
    if maxRun c s = 0 then none
    else tryDown (fun n => mtch rest (s.drop n) (some (s.take n))) 1 (maxRun c s)
  | .eol :: rest, s, _cap =>
    match s with
    | '\n' :: s' => mtch rest s' _cap
    | [] => mtch rest [] _cap
    | _ => none

/-- Model of `re.search`: try each start position left to right. -/
def reSearch (ps : List RE) : List Char → Option (List Char)
  | [] => mtch ps [] none
  | c :: t =>
    match mtch ps (c :: t) none with
    | some cap => some cap
    | none => reSearch ps t

/-- Pattern `Title:\s*"([^"]+)"`. -/
def patTitleQuoted : List RE :=
  [.lit "Title:".data, .starC .space, .lit ['"'], .grpPlus .notQuote, .lit ['"']]

/-- Pattern `Title:\s*(.+)(?:\n|$)`. -/
def patTitlePlain : List RE :=
  [.lit "Title:".data, .starC .space, .grpPlus .dot, .eol]

/-- Pattern `Chapter\s+\d+:\s*(.+)(?:\n|$)`. -/
def patChapterHeading : List RE :=
  [.lit "Chapter".data, .plusC .space, .plusC .digit, .lit [':'],
   .starC .space, .grpPlus .dot, .eol]

/-- Pattern `#\s*(.+)(?:\n|$)`. -/
def patHashHeading : List RE :=
  [.lit ['#'], .starC .space, .grpPlus .dot, .eol]

/-- Ordered pattern list of `OutlineReviewer.extract_title`. -/
def titlePatterns : List (List RE) :=
  [patTitleQuoted, patTitlePlain, patChapterHeading, patHashHeading]

/-- Loop body of `extract_title`: return the stripped capture of the
first pattern that matches, else the empty string. -/
def extractTitleGo : List (List RE) → String → String
  | [], _ => ""
  | p :: ps, outline =>
    match reSearch p outline.data with
    | some cap => pyStrip (String.mk cap)
    | none => extractTitleGo ps outline

/-- Model of `OutlineReviewer.extract_title`. -/
def extractTitle (outline : String) : String := extractTitleGo titlePatterns outline

/-! ## Text preprocessing and TF-IDF cosine similarity -/

/-- Opaque deterministic model of the NLTK components used by
`OutlineReviewer._preprocess`: `word_tokenize`, the English stop-word
set, and `PorterStemmer.stem`. -/
structure NLP where
  tokenize : String → List String
  stopword : String → Bool
  stem : String → String

/-- Tokens kept by the filter in `OutlineReviewer._preprocess`:
`token.isalpha() and token not in stop_words`, applied to
`word_tokenize(text.lower())`. -/
def preTokens (nlp : NLP) (text : String) : List String :=
  (nlp.tokenize (pyLower text)).filter (fun t => pyIsAlpha t && !nlp.stopword t)

/-- Model of Python `' '.join`. -/
def joinSpaces : List String → String
  | [] => ""
  | [s] => s
  | s :: rest => s ++ " " ++ joinSpaces rest

/-- Model of `OutlineReviewer._preprocess`: stem the kept tokens and
join them with single spaces. -/
def preprocess (nlp : NLP) (text : String) : String :=
  joinSpaces ((preTokens nlp text).map nlp.stem)

/-- Word characters of the `re` pattern `\w` (ASCII view). -/
def isWordChar (c : Char) : Bool := c.isAlphanum || c = '_'

/-- Accumulator pass splitting a character list into maximal runs
satisfying `p`. -/
def charRunsAux (p : Char → Bool) : List Char → List Char → List (List Char)
  | cur, [] => if cur = [] then [] else [cur.reverse]
  | cur, c :: cs =>
    if p c then charRunsAux p (c :: cur) cs
    else if cur = [] then charRunsAux p [] cs
    else cur.reverse :: charRunsAux p [] cs

/-- Maximal runs of word characters: the matches of `\w+`. -/
def wordRuns (s : String) : List String :=
  (charRunsAux isWordChar [] s.data).map String.mk

/-- Token sequence the `TfidfVectorizer` extracts from one preprocessed
document: the default token pattern keeps only runs of word characters
of length at least two, after lower-casing. -/
def docTokens (nlp : NLP) (text : String) : List String :=
  (wordRuns (pyLower (preprocess nlp text))).filter (fun t => 2 ≤ t.length)

/-- Vocabulary of the two-document corpus. -/
def vocab (d1 d2 : List String) : Finset String := (d1 ++ d2).toFinset

/-- Raw term frequency of `t` in document `d`. -/
def tf (d : List String) (t : String) : Nat := d.count t

/-- Document frequency of `t` in the corpus of the two documents. -/
def df (d1 d2 : List String) (t : String) : Nat :=
  (if t ∈ d1 then 1 else 0) + (if t ∈ d2 then 1 else 0)

/-- Smooth inverse document frequency used by `TfidfVectorizer` with
default settings on a corpus of two documents:
`ln((1 + 2) / (1 + df)) + 1`. -/
noncomputable def idf (d1 d2 : List String) (t : String) : ℝ :=
  Real.log (3 / (1 + (df d1 d2 t : ℝ))) + 1

/-- Unnormalised tf-idf weight of term `t` in document `d`. -/
noncomputable def tfidf (d1 d2 d : List String) (t : String) : ℝ :=
  (tf d t : ℝ) * idf d1 d2 t

/-- Euclidean norm of the tf-idf vector of document `d`. -/
noncomputable def vnorm (d1 d2 d : List String) : ℝ :=
  Real.sqrt (∑ t ∈ vocab d1 d2, tfidf d1 d2 d t ^ 2)

/-- L2-normalised tf-idf vector; a zero row stays zero, matching
sklearn's `normalize`. -/
noncomputable def unitVec (d1 d2 d : List String) (t : String) : ℝ :=
  if vnorm d1 d2 d = 0 then 0 else tfidf d1 d2 d t / vnorm d1 d2 d

/-- Cosine similarity entry `[0][1]` of the two normalised rows. -/
noncomputable def cosSim (d1 d2 : List String) : ℝ :=
  ∑ t ∈ vocab d1 d2, unitVec d1 d2 d1 t * unitVec d1 d2 d2 t

/-- Model of `OutlineReviewer._calculate_similarity`: preprocess both
texts, fit the two-document tf-idf model and return the cosine
similarity; an empty vocabulary (both token lists empty) makes
`TfidfVectorizer.fit_transform` raise `ValueError`. -/
noncomputable def calcSimilarity (nlp : NLP) (text1 text2 : String) : Except PyErr ℝ :=
  let d1 := docTokens nlp text1
  let d2 := docTokens nlp text2
  if d1 = [] ∧ d2 = [] then .error .valueError else .ok (cosSim d1 d2)

/-- Loop of `OutlineReviewer.validate_outline`: compare the candidate
against each previous outline (both lower-cased) and fail on the first
similarity above `0.7`. -/
noncomputable def validateLoop (nlp : NLP) (outline : String) : List String → Except PyErr Bool
  | [] => .ok true
  | p :: rest =>
    match calcSimilarity nlp (pyLower outline) (pyLower p) with
    | .error e => .error e
    | .ok s => if (7 : ℝ) / 10 < s then .ok false else validateLoop nlp outline rest

/-- Model of `OutlineReviewer.validate_outline`. -/
noncomputable def validateOutline (nlp : NLP) (outline : String) (prevs : List String) :
    Except PyErr Bool :=
  if prevs = [] then .ok true else validateLoop nlp outline prevs

/-! ## OutlineReviewer state and review -/

/-- State of an `OutlineReviewer`: the chapter-indexed accepted outlines
(a Python dict, insertion ordered) and the set of accepted titles. -/
structure RState where
  outlines : List (Nat × String)
  titles : List String
deriving DecidableEq

/-- Insert or update a key in an insertion-ordered dict. -/
def dictInsert (l : List (Nat × String)) (k : Nat) (v : String) : List (Nat × String) :=
  if l.any (fun p => p.1 == k) then l.map (fun p => if p.1 == k then (k, v) else p)
  else l ++ [(k, v)]

/-- Add an element to a Python set modelled as a duplicate-free list. -/
def setAdd (l : List String) (t : String) : List String :=
  if l.contains t then l else l ++ [t]

/-- Model of `OutlineReviewer.check_title_uniqueness`. -/
def checkTitleUniqueness (st : RState) (title : String) : Bool :=
  !(st.titles.map pyLower).contains (pyLower title)

/-- Model of `OutlineReviewer.add_existing_outline`. -/
def addExistingOutline (st : RState) (outline : String) (chapterNum : Nat) : RState :=
  let title := extractTitle outline
  { outlines := dictInsert st.outlines chapterNum outline,
    titles := if title ≠ "" then setAdd st.titles title else st.titles }

/-- Result record of `OutlineReviewer.review_outline`. -/
structure Review where
  is_valid : Bool
  title_unique : Bool
  outline_unique : Bool
  issues : List String
  suggestions : List String
deriving DecidableEq

/-- Model of `OutlineReviewer.review_outline`: check title uniqueness,
check outline uniqueness (which may raise through the similarity
computation), commit the outline and title only when no issues were
collected, and set `is_valid` to "no issues". -/
noncomputable def reviewOutline (nlp : NLP) (st : RState) (outline : String)
    (chapterNum : Nat) (_premise : String) : Except PyErr (Review × RState) :=
  let title := extractTitle outline
  let titleUnique := if title ≠ "" then checkTitleUniqueness st title else true
  let titleIssues :=
    if title ≠ "" && !titleUnique then
      ["Chapter title " ++ title ++ " is too similar to an existing title"] else []
  match validateOutline nlp outline (st.outlines.map Prod.snd) with
  | .error e => .error e
  | .ok outlineUnique =>
    let issues := titleIssues ++
      (if outlineUnique then [] else ["Outline is too similar to a previous chapter"])
    let st' :=
      if issues = [] then
        { outlines := dictInsert st.outlines chapterNum outline,
          titles := if title ≠ "" then setAdd st.titles title else st.titles }
      else st
    .ok ({ is_valid := issues.isEmpty, title_unique := titleUnique,
           outline_unique := outlineUnique, issues := issues, suggestions := [] }, st')

/-- Concrete instantiation of the NLTK parameters used for witnesses and
counterexamples: tokens are maximal alphabetic runs, no stop words, the
identity stemmer. -/
def trivNlp : NLP where
  tokenize s := (charRunsAux Char.isAlpha [] s.data).map String.mk
  stopword _ := false
  stem s := s

/-! ## CharacterManager -/

/-- Model of the `Character` dataclass.  The two appearance fields are
annotated `str` in the source but receive the `int` 0 in the coercion
branch of `add_character`, so they carry `PyVal`. -/
structure Character where
  name : String
  role : String
  description : String
  personality : String
  relationships : List (String × String)
  key_traits : List String
  first_appearance : PyVal
  last_appearance : PyVal
  story_arc : String
deriving DecidableEq

/-- Insert or update a string key in an insertion-ordered dict. -/
def assocUpsert {β : Type} (l : List (String × β)) (k : String) (v : β) :
    List (String × β) :=
  if l.any (fun p => p.1 == k) then l.map (fun p => if p.1 == k then (k, v) else p)
  else l ++ [(k, v)]

/-- State of a `CharacterManager`: the name-keyed character dict and the
chapter-keyed mention table. -/
structure CharacterManager where
  characters : List (String × Character)
  mentions : List (String × List (String × Nat))
deriving DecidableEq

/-- Model of `CharacterManager.add_character`: coerce an unparseable
`first_appearance` to the `int` 0 in both appearance fields (the
`ValueError` is caught, nothing is raised), then store under the
lower-cased name, overwriting any existing entry. -/
def addCharacter (m : CharacterManager) (c : Character) : CharacterManager :=
  let c' :=
    match c.first_appearance.toIntOpt with
    | some _ => c
    | none => { c with first_appearance := .int 0, last_appearance := .int 0 }
  { m with characters := assocUpsert m.characters (pyLower c.name) c' }

/-- Model of `CharacterManager.get_character`: case-insensitive lookup. -/
def getCharacter (m : CharacterManager) (name : String) : Option Character :=
  (m.characters.find? (fun p => p.1 == pyLower name)).map Prod.snd

/-- Model of `CharacterManager.update_appearance`: if the character
exists, set `first_appearance` when it is currently falsy, and always
overwrite `last_appearance` with the given chapter string. -/
def updateAppearance (m : CharacterManager) (name : String) (chapter : String) :
    CharacterManager :=
  match getCharacter m (pyLower name) with
  | none => m
  | some c =>
    let c' :=
      if c.first_appearance.truthy then { c with last_appearance := .str chapter }
      else { c with first_appearance := .str chapter, last_appearance := .str chapter }
    { m with characters :=
        m.characters.map (fun p => if p.1 == pyLower (pyLower name) then (p.1, c') else p) }

/-- Model of `CharacterManager.track_mention`: bump the per-chapter
mention counter, creating the chapter bucket if absent. -/
def trackMention (m : CharacterManager) (chapter : String) (name : String) :
    CharacterManager :=
  let bucket := ((m.mentions.find? (fun p => p.1 == chapter)).map Prod.snd).getD []
  let old := ((bucket.find? (fun p => p.1 == pyLower name)).map Prod.snd).getD 0
  { m with mentions :=
      assocUpsert m.mentions chapter (assocUpsert bucket (pyLower name) (old + 1)) }

/-! ## Serialization (`to_dict` / `from_dict`) -/

/-- Structured record produced by `dataclasses.asdict` for a character. -/
structure CharDict where
  name : String
  role : String
  description : String
  personality : String
  relationships : List (String × String)
  key_traits : List String
  first_appearance : PyVal
  last_appearance : PyVal
  story_arc : String
deriving DecidableEq

/-- Model of `dataclasses.asdict` on a `Character`. -/
def charAsDict (c : Character) : CharDict :=
  ⟨c.name, c.role, c.description, c.personality, c.relationships, c.key_traits,
   c.first_appearance, c.last_appearance, c.story_arc⟩

/-- Model of `Character(**char_data)` on a full field record. -/
def charOfDict (d : CharDict) : Character :=
  ⟨d.name, d.role, d.description, d.personality, d.relationships, d.key_traits,
   d.first_appearance, d.last_appearance, d.story_arc⟩

/-- Structured document written by `CharacterManager.to_dict`. -/
structure SerDoc where
  characters : List (String × CharDict)
  mentions : List (String × List (String × Nat))
deriving DecidableEq

/-- Model of `CharacterManager.to_dict`. -/
def toDict (m : CharacterManager) : SerDoc :=
  ⟨m.characters.map (fun p => (p.1, charAsDict p.2)), m.mentions⟩

/-- Model of `CharacterManager.from_dict`: rebuild both fields from the
document, discarding the previous in-memory state entirely. -/
def fromDict (_m : CharacterManager) (d : SerDoc) : CharacterManager :=
  ⟨d.characters.map (fun p => (p.1, charOfDict p.2)), d.mentions⟩

/-! ## Revision loop (`write_chapter_with_revisions`) -/

/-- Acceptance heuristic of the revision loop: the feedback, lowered,
contains "excellent" or "outstanding". -/
def hasMarker (feedback : String) : Bool :=
  pyContains (pyLower feedback) "excellent" || pyContains (pyLower feedback) "outstanding"

/-- Loop body of `write_chapter_with_revisions`.  The writer and the
reviewer conversations are oracles: `write i fb` is the chapter text the
writer produces in round `i` from the previous feedback `fb`, and
`review c r` is the reviewer feedback on content `c` labelled revision
`r`.  Each round appends its (content, feedback) pair; a feedback with a
positive-quality marker stops the loop early. -/
def revisionRounds (write : Nat → Option String → String) (review : String → Nat → String) :
    Nat → Nat → Option String → List (String × String)
  | 0, _, _ => []
  | n + 1, i, fb =>
    let chapter := write i fb
    let feedback := review chapter (i + 1)
    (chapter, feedback) ::
      (if hasMarker feedback then [] else revisionRounds write review n (i + 1) (some feedback))

/-- Model of `NovelWriter.write_chapter_with_revisions` with revision
bound `maxRev`; the returned list models the `revision_1 .. revision_k`
entries of the versions dict in order. -/
def writeChapterWithRevisions (maxRev : Nat) (write : Nat → Option String → String)
    (review : String → Nat → String) : List (String × String) :=
  revisionRounds write review maxRev 0 none

/-- Canonical chapter text selected by `write_novel`:
`chapter_versions[f"revision_{len(chapter_versions)}"]["content"]`,
the content of the last produced revision. -/
def finalVersion (versions : List (String × String)) : String :=
  match versions.getLast? with
  | some p => p.1
  | none => ""

/-! ## Chapter outline generation (`generate_chapter_outline`) -/

/-- Module-level constant `num_chapters` of `app.py`. -/
def numChapters : Nat := 15

/-- Extra instruction assigned only for the final chapter. -/
def finalChapterNote : String := "This is the final chapter. Ensure a satisfying conclusion."

/-- Attempt loop of `generate_chapter_outline`, carried out with `fuel`
remaining retries (the source runs `max_attempts = 3` attempts, so the
entry point passes fuel 2).  Building the prompt reads the local
variable `extra_instructions`, which is only assigned when the chapter
is the final one; reading it unassigned raises `NameError` before the
outline oracle is consulted.  An outline judged valid by the automated
review is returned at once; otherwise the last attempt's outline is
returned when the retries are exhausted. -/
noncomputable def genLoop (nlp : NLP) (gen : Nat → String) (premise : String)
    (chapterNum : Nat) (extra : Option String) :
    Nat → Nat → RState → Except PyErr (String × RState)
  | fuel, attempt, st =>
    match extra with
    | none => .error .nameError
    | some _instr =>
      let outline := gen attempt
      match reviewOutline nlp st outline chapterNum premise with
      | .error e => .error e
      | .ok (review, st') =>
        if review.is_valid then .ok (outline, st')
        else
          match fuel with
          | 0 => .ok (outline, st')
          | f + 1 => genLoop nlp gen premise chapterNum extra f (attempt + 1) st'

/-- Model of `NovelWriter.generate_chapter_outline`.  The group-chat
machinery is abstracted into the outline oracle `gen`; the reviewer
state is threaded through the automated review. -/
noncomputable def generateChapterOutline (nlp : NLP) (gen : Nat → String) (st : RState)
    (premise : String) (chapterNum : Nat) : Except PyErr (String × RState) :=
  let extra : Option String :=
    if chapterNum = numChapters then some finalChapterNote else none
  genLoop nlp gen premise chapterNum extra 2 0 st

/-! ## Helper lemmas about the similarity model -/

theorem idf_ge_one (d1 d2 : List String) (t : String) : 1 ≤ idf d1 d2 t := by
  rw [idf]
  have hdf : (df d1 d2 t : ℝ) ≤ 2 := by
    rw [df]; push_cast; split_ifs <;> norm_num
  have h0 : (0 : ℝ) ≤ (df d1 d2 t : ℝ) := Nat.cast_nonneg _
  have h1 : (1 : ℝ) ≤ 3 / (1 + (df d1 d2 t : ℝ)) := by
    rw [le_div_iff₀ (by linarith)]; linarith
  have := Real.log_nonneg h1
  linarith

theorem tfidf_nonneg (d1 d2 d : List String) (t : String) : 0 ≤ tfidf d1 d2 d t := by
  rw [tfidf]
  exact mul_nonneg (Nat.cast_nonneg _) (le_trans zero_le_one (idf_ge_one d1 d2 t))

theorem unitVec_nonneg (d1 d2 d : List String) (t : String) : 0 ≤ unitVec d1 d2 d t := by
  rw [unitVec]
  split_ifs with h
  · exact le_refl 0
  · exact div_nonneg (tfidf_nonneg d1 d2 d t) (Real.sqrt_nonneg _)

theorem sumUnitSq (d1 d2 d : List String) :
    ∑ t ∈ vocab d1 d2, unitVec d1 d2 d t ^ 2 = if vnorm d1 d2 d = 0 then 0 else 1 := by
  by_cases h : vnorm d1 d2 d = 0
  · simp [unitVec, h]
  · have hS : 0 ≤ ∑ t ∈ vocab d1 d2, tfidf d1 d2 d t ^ 2 :=
      Finset.sum_nonneg fun t _ => sq_nonneg _
    have hsq : vnorm d1 d2 d ^ 2 = ∑ t ∈ vocab d1 d2, tfidf d1 d2 d t ^ 2 :=
      Real.sq_sqrt hS
    have hSne : (∑ t ∈ vocab d1 d2, tfidf d1 d2 d t ^ 2) ≠ 0 := by
      intro h0
      exact h (by rw [vnorm, h0, Real.sqrt_zero])
    rw [if_neg h]
    calc ∑ t ∈ vocab d1 d2, unitVec d1 d2 d t ^ 2
        = ∑ t ∈ vocab d1 d2, tfidf d1 d2 d t ^ 2 / vnorm d1 d2 d ^ 2 := by
          refine Finset.sum_congr rfl fun t _ => ?_
          rw [unitVec, if_neg h, div_pow]
      _ = (∑ t ∈ vocab d1 d2, tfidf d1 d2 d t ^ 2) / vnorm d1 d2 d ^ 2 :=
          (Finset.sum_div _ _ _).symm
      _ = 1 := by rw [hsq]; exact div_self hSne

theorem cosSim_nonneg (d1 d2 : List String) : 0 ≤ cosSim d1 d2 := by
  rw [cosSim]
  exact Finset.sum_nonneg fun t _ =>
    mul_nonneg (unitVec_nonneg d1 d2 d1 t) (unitVec_nonneg d1 d2 d2 t)

theorem cosSim_le_one (d1 d2 : List String) : cosSim d1 d2 ≤ 1 := by
  have h1 : 0 ≤ cosSim d1 d2 := cosSim_nonneg d1 d2
  have hcs := Finset.sum_mul_sq_le_sq_mul_sq (vocab d1 d2)
    (unitVec d1 d2 d1) (unitVec d1 d2 d2)
  have hA0 : 0 ≤ ∑ t ∈ vocab d1 d2, unitVec d1 d2 d1 t ^ 2 :=
    Finset.sum_nonneg fun t _ => sq_nonneg _
  have hB0 : 0 ≤ ∑ t ∈ vocab d1 d2, unitVec d1 d2 d2 t ^ 2 :=
    Finset.sum_nonneg fun t _ => sq_nonneg _
  have hA1 : ∑ t ∈ vocab d1 d2, unitVec d1 d2 d1 t ^ 2 ≤ 1 := by
    rw [sumUnitSq]; split_ifs <;> norm_num
  have hB1 : ∑ t ∈ vocab d1 d2, unitVec d1 d2 d2 t ^ 2 ≤ 1 := by
    rw [sumUnitSq]; split_ifs <;> norm_num
  rw [cosSim] at h1 ⊢
  nlinarith [hcs, hA0, hB0, hA1, hB1, h1]

theorem vnorm_pos_left (d1 d2 : List String) (h : d1 ≠ []) : 0 < vnorm d1 d2 d1 := by
  obtain ⟨t, ht⟩ := List.exists_mem_of_ne_nil d1 h
  apply Real.sqrt_pos.mpr
  apply Finset.sum_pos' (fun x _ => sq_nonneg _)
  refine ⟨t, ?_, ?_⟩
  · rw [vocab]
    exact List.mem_toFinset.mpr (List.mem_append.mpr (Or.inl ht))
  · have htf : 1 ≤ (tf d1 t : ℝ) := by
      have hc : 0 < tf d1 t := by
        rw [tf]
        exact List.count_pos_iff.mpr ht
      exact_mod_cast hc
    have hidf : 1 ≤ idf d1 d2 t := idf_ge_one d1 d2 t
    have h1 : 1 ≤ tfidf d1 d2 d1 t := by
      rw [tfidf]; nlinarith
    nlinarith

theorem cosSim_self (d : List String) (h : d ≠ []) : cosSim d d = 1 := by
  have hv : vnorm d d d ≠ 0 := ne_of_gt (vnorm_pos_left d d h)
  have hsq : cosSim d d = ∑ t ∈ vocab d d, unitVec d d d t ^ 2 := by
    rw [cosSim]
    exact Finset.sum_congr rfl fun t _ => (pow_two (unitVec d d d t)).symm
  rw [hsq, sumUnitSq, if_neg hv]

theorem cosSim_left_nil (d2 : List String) : cosSim [] d2 = 0 := by
  have hv : vnorm [] d2 [] = 0 := by
    rw [vnorm]
    have hz : ∑ t ∈ vocab [] d2, tfidf [] d2 [] t ^ 2 = 0 :=
      Finset.sum_eq_zero fun t _ => by simp [tfidf, tf]
    rw [hz, Real.sqrt_zero]
  rw [cosSim]
  exact Finset.sum_eq_zero fun t _ => by rw [unitVec, if_pos hv, zero_mul]

theorem cosSim_right_nil (d1 : List String) : cosSim d1 [] = 0 := by
  have hv : vnorm d1 [] [] = 0 := by
    rw [vnorm]
    have hz : ∑ t ∈ vocab d1 [], tfidf d1 [] [] t ^ 2 = 0 :=
      Finset.sum_eq_zero fun t _ => by simp [tfidf, tf]
    rw [hz, Real.sqrt_zero]
  rw [cosSim]
  refine Finset.sum_eq_zero fun t _ => ?_
  have hz : unitVec d1 [] [] t = 0 := by rw [unitVec, if_pos hv]
  rw [hz, mul_zero]

theorem calcSimilarity_ok_bounds (nlp : NLP) (a b : String) (x : ℝ)
    (h : calcSimilarity nlp a b = .ok x) : 0 ≤ x ∧ x ≤ 1 := by
  rw [calcSimilarity] at h
  by_cases hc : docTokens nlp a = [] ∧ docTokens nlp b = []
  · rw [if_pos hc] at h
    exact absurd h (by simp)
  · rw [if_neg hc] at h
    have hx : cosSim (docTokens nlp a) (docTokens nlp b) = x := by
      exact Except.ok.inj h
    rw [← hx]
    exact ⟨cosSim_nonneg _ _, cosSim_le_one _ _⟩

theorem calcSimilarity_self (nlp : NLP) (a : String) (h : docTokens nlp a ≠ []) :
    calcSimilarity nlp a a = .ok 1 := by
  rw [calcSimilarity, if_neg (by tauto), cosSim_self _ h]

/-! ## Operation sequences over the character store (for the appearance
invariant) -/

/-- An operation on the character store: `CharacterManager.add_character`
or `CharacterManager.update_appearance`. -/
inductive CMOp where
  | add (c : Character)
  | upd (name : String) (chapter : String)
deriving DecidableEq

/-- Apply one store operation. -/
def applyOp (m : CharacterManager) : CMOp → CharacterManager
  | .add c => addCharacter m c
  | .upd name chapter => updateAppearance m name chapter

/-- Apply a sequence of store operations. -/
def applyOps (m : CharacterManager) (ops : List CMOp) : CharacterManager :=
  ops.foldl applyOp m

/-- Appearance invariant for one character, with the fields read as
chapter numbers: once both are set (nonzero), first does not exceed
last. -/
def chOk (c : Character) : Bool :=
  decide (chapNum c.first_appearance = 0 ∨ chapNum c.last_appearance = 0 ∨
    chapNum c.first_appearance ≤ chapNum c.last_appearance)

/-- The appearance invariant for every character in the store. -/
def charsOk (m : CharacterManager) : Bool := m.characters.all (fun p => chOk p.2)

/-- Side condition on one operation under which the appearance invariant
is preserved: an added character either fails integer parsing (and is
coerced to unset) or already satisfies first ≤ last (as the characters
built by `initialize_characters` do, since it sets last := first); an
update uses a chapter not below the target's currently set
first_appearance. -/
def okOp (m : CharacterManager) : CMOp → Bool
  | .add c =>
    c.first_appearance.toIntOpt == none ||
      decide (chapNum c.first_appearance ≤ chapNum c.last_appearance)
  | .upd name chapter =>
    match getCharacter m (pyLower name) with
    | none => true
    | some c =>
      !c.first_appearance.truthy ||
        decide (chapNum c.first_appearance ≤ chapNum (.str chapter))

/-- The side condition along a whole operation sequence. -/
def okTrace (m : CharacterManager) : List CMOp → Bool
  | [] => true
  | op :: ops => okOp m op && okTrace (applyOp m op) ops

/-! ## Helper lemmas about the outline reviewer -/

theorem validateOutline_self (nlp : NLP) (O : String)
    (hd : docTokens nlp (pyLower O) ≠ []) : validateOutline nlp O [O] = .ok false := by
  rw [validateOutline, if_neg (by simp), validateLoop,
    calcSimilarity_self nlp (pyLower O) hd]
  norm_num

theorem reviewOutline_empty (nlp : NLP) (O P : String) (C : Nat) :
    reviewOutline nlp ⟨[], []⟩ O C P =
      .ok ({ is_valid := true, title_unique := true, outline_unique := true,
             issues := [], suggestions := [] },
           ⟨[(C, O)], if extractTitle O ≠ "" then [extractTitle O] else []⟩) := by
  simp [reviewOutline, validateOutline, checkTitleUniqueness, dictInsert, setAdd]

/-! ## Claims -/

/-- C1 (amended): for every outline O whose preprocessed form retains at
least one vectorizer term, `review(O, C, premise)` on a validator with no
stored outlines or titles succeeds (commits O at C), and an immediately
following `review(O, C', premise)` with `C' ≠ C` and O unchanged returns
`outline_unique = false` with the state unchanged, because the
similarity of O against the stored copy of itself is 1.0, which exceeds
the 0.70 threshold.  (The original claim, quantified over every outline,
fails for outlines whose preprocessed form keeps no vectorizer term: the
second call then raises `ValueError` from the vectorizer instead of
returning a review.) -/
theorem claim_C1 (nlp : NLP) (O P P' : String) (C C' : Nat) (_hne : C' ≠ C)
    (hd : docTokens nlp (pyLower O) ≠ []) :
    reviewOutline nlp ⟨[], []⟩ O C P =
      .ok ({ is_valid := true, title_unique := true, outline_unique := true,
             issues := [], suggestions := [] },
           ⟨[(C, O)], if extractTitle O ≠ "" then [extractTitle O] else []⟩) ∧
    calcSimilarity nlp (pyLower O) (pyLower O) = .ok 1 ∧
    Except.map (fun p => (p.1.outline_unique, p.2))
      (reviewOutline nlp ⟨[(C, O)], if extractTitle O ≠ "" then [extractTitle O] else []⟩
        O C' P') =
      .ok (false, ⟨[(C, O)], if extractTitle O ≠ "" then [extractTitle O] else []⟩) := by
  refine ⟨reviewOutline_empty nlp O P C, calcSimilarity_self nlp (pyLower O) hd, ?_⟩
  by_cases ht : extractTitle O = ""
  · simp [reviewOutline, validateOutline_self nlp O hd, checkTitleUniqueness, ht, Except.map]
  · simp [reviewOutline, validateOutline_self nlp O hd, checkTitleUniqueness, ht, Except.map]

/-- C1 counterexample: with the empty outline, the first review on a
fresh validator succeeds and commits, but the immediately following
review of the same outline at another chapter raises `ValueError` (the
vectorizer sees an empty vocabulary) instead of returning
`outline_unique = false`. -/
theorem claim_C1_cex :
    reviewOutline trivNlp ⟨[], []⟩ "" 1 "p" =
      .ok ({ is_valid := true, title_unique := true, outline_unique := true,
             issues := [], suggestions := [] }, ⟨[(1, "")], []⟩) ∧
    reviewOutline trivNlp ⟨[(1, "")], []⟩ "" 2 "p" = .error .valueError := by
  constructor
  · rw [reviewOutline_empty]
    simp [show extractTitle "" = "" from by decide]
  · have hcalc : calcSimilarity trivNlp (pyLower "") (pyLower "") = .error .valueError := by
      simp only [calcSimilarity]
      rw [if_pos ⟨by decide, by decide⟩]
    simp [reviewOutline, validateOutline, validateLoop, hcalc]

/-- C1 witness: the amended claim applied to a concrete outline. -/
theorem claim_C1_witness :
    reviewOutline trivNlp ⟨[], []⟩ "Title: \"A\"\nAlpha beta gamma" 1 "p" =
      .ok ({ is_valid := true, title_unique := true, outline_unique := true,
             issues := [], suggestions := [] },
           ⟨[(1, "Title: \"A\"\nAlpha beta gamma")], ["A"]⟩) ∧
    calcSimilarity trivNlp (pyLower "Title: \"A\"\nAlpha beta gamma")
      (pyLower "Title: \"A\"\nAlpha beta gamma") = .ok 1 ∧
    Except.map (fun p => (p.1.outline_unique, p.2))
      (reviewOutline trivNlp ⟨[(1, "Title: \"A\"\nAlpha beta gamma")], ["A"]⟩
        "Title: \"A\"\nAlpha beta gamma" 2 "p") =
      .ok (false, ⟨[(1, "Title: \"A\"\nAlpha beta gamma")], ["A"]⟩) := by
  have h := claim_C1 trivNlp "Title: \"A\"\nAlpha beta gamma" "p" "p" 1 2
    (by decide) (by decide)
  simpa [show extractTitle "Title: \"A\"\nAlpha beta gamma" = "A" from by decide] using h

/-- C2: whenever `review_outline` returns (rather than raising), the
returned `is_valid` is true exactly when the issues list is empty; on
empty issues the state is exactly the previous state with the outline
stored under the chapter index and a nonempty title registered, and on
nonempty issues the state is exactly as before the call. -/
theorem claim_C2 (nlp : NLP) (st : RState) (O P : String) (C : Nat) (r : Review)
    (st' : RState) (h : reviewOutline nlp st O C P = .ok (r, st')) :
    (r.is_valid = true ↔ r.issues = []) ∧
    (r.issues = [] →
      st' = ⟨dictInsert st.outlines C O,
             if extractTitle O ≠ "" then setAdd st.titles (extractTitle O) else st.titles⟩) ∧
    (r.issues ≠ [] → st' = st) := by
  rw [reviewOutline] at h
  cases hval : validateOutline nlp O (st.outlines.map Prod.snd) with
  | error e =>
    rw [hval] at h
    exact absurd h (by simp)
  | ok ou =>
    rw [hval] at h
    simp only [Except.ok.injEq, Prod.mk.injEq] at h
    obtain ⟨hr, hst⟩ := h
    subst hr
    subst hst
    refine ⟨by simp [List.isEmpty_iff], fun hiss => ?_, fun hiss => ?_⟩
    · rw [if_pos hiss]
    · rw [if_neg hiss]

/-- C2 witness: the theorem applied to a concrete successful review. -/
theorem claim_C2_witness :
    (({ is_valid := true, title_unique := true, outline_unique := true,
        issues := [], suggestions := [] } : Review).is_valid = true ↔
      ({ is_valid := true, title_unique := true, outline_unique := true,
         issues := [], suggestions := [] } : Review).issues = []) ∧
    (({ is_valid := true, title_unique := true, outline_unique := true,
        issues := [], suggestions := [] } : Review).issues = [] →
      (⟨[(1, "Title: \"A\"")], ["A"]⟩ : RState) =
        ⟨dictInsert ([] : List (Nat × String)) 1 "Title: \"A\"",
         if extractTitle "Title: \"A\"" ≠ "" then
           setAdd ([] : List String) (extractTitle "Title: \"A\"") else []⟩) ∧
    (({ is_valid := true, title_unique := true, outline_unique := true,
        issues := [], suggestions := [] } : Review).issues ≠ [] →
      (⟨[(1, "Title: \"A\"")], ["A"]⟩ : RState) = ⟨[], []⟩) := by
  exact claim_C2 trivNlp ⟨[], []⟩ "Title: \"A\"" "p" 1 _ _
    (by rw [reviewOutline_empty]; simp [show extractTitle "Title: \"A\"" = "A" from by decide])

/-- C3: with `max_rounds = 3` and a critique that never produces a
positive-quality marker ("excellent"/"outstanding", case-insensitive),
the revision loop performs exactly 3 generate-then-critique rounds,
retains all 3 (content, feedback) pairs in order, and the canonical
content selected by `write_novel` is the 3rd round's content; the bound
being exhausted returns normally, it is not an error. -/
theorem claim_C3 (write : Nat → Option String → String) (review : String → Nat → String)
    (h : ∀ c i, hasMarker (review c i) = false) :
    (writeChapterWithRevisions 3 write review).length = 3 ∧
    writeChapterWithRevisions 3 write review =
      [(write 0 none, review (write 0 none) 1),
       (write 1 (some (review (write 0 none) 1)),
        review (write 1 (some (review (write 0 none) 1))) 2),
       (write 2 (some (review (write 1 (some (review (write 0 none) 1))) 2)),
        review (write 2 (some (review (write 1 (some (review (write 0 none) 1))) 2))) 3)] ∧
    finalVersion (writeChapterWithRevisions 3 write review) =
      write 2 (some (review (write 1 (some (review (write 0 none) 1))) 2)) := by
  have hres : writeChapterWithRevisions 3 write review =
      [(write 0 none, review (write 0 none) 1),
       (write 1 (some (review (write 0 none) 1)),
        review (write 1 (some (review (write 0 none) 1))) 2),
       (write 2 (some (review (write 1 (some (review (write 0 none) 1))) 2)),
        review (write 2 (some (review (write 1 (some (review (write 0 none) 1))) 2))) 3)] := by
    simp [writeChapterWithRevisions, revisionRounds, h]
  refine ⟨by rw [hres]; rfl, hres, by rw [hres]; rfl⟩

/-- C3 witness: the theorem applied to a constant writer and a critique
that always answers without a quality marker. -/
theorem claim_C3_witness :
    writeChapterWithRevisions 3 (fun _ _ => "draft") (fun _ _ => "needs more work") =
      [("draft", "needs more work"), ("draft", "needs more work"),
       ("draft", "needs more work")] ∧
    finalVersion
      (writeChapterWithRevisions 3 (fun _ _ => "draft") (fun _ _ => "needs more work")) =
      "draft" := by
  have h3 := claim_C3 (fun _ _ => "draft") (fun _ _ => "needs more work")
    (fun _ _ => by show hasMarker "needs more work" = false; decide)
  exact ⟨h3.2.1, h3.2.2⟩

/-- C4 (amended): when exactly one of the two texts contributes no
vectorizer term (it is empty or reduces to nothing after stop-word and
token filtering) while the other contributes at least one, the
similarity is the defined value 0 in both argument orders; when both
texts contribute no term, `TfidfVectorizer.fit_transform` raises
`ValueError` instead (so the original claim, which allows both texts to
be empty, fails). -/
theorem claim_C4 (nlp : NLP) (a b : String) (ha : docTokens nlp a = [])
    (hb : docTokens nlp b ≠ []) :
    calcSimilarity nlp a b = .ok 0 ∧ calcSimilarity nlp b a = .ok 0 := by
  constructor
  · simp only [calcSimilarity, ha]
    rw [if_neg (by simp [hb]), cosSim_left_nil]
  · simp only [calcSimilarity, ha]
    rw [if_neg (by simp [hb]), cosSim_right_nil]

/-- C4 counterexample: with both texts empty (each a zero vector), the
similarity computation raises `ValueError` rather than returning 0. -/
theorem claim_C4_cex : calcSimilarity trivNlp "" "" = .error .valueError := by
  simp only [calcSimilarity]
  rw [if_pos ⟨by decide, by decide⟩]

/-- C4 witness: the amended claim applied to an empty text against a
text with one vectorizer term. -/
theorem claim_C4_witness :
    calcSimilarity trivNlp "" "ab" = .ok 0 ∧ calcSimilarity trivNlp "ab" "" = .ok 0 :=
  claim_C4 trivNlp "" "ab" (by decide) (by decide)

/-- C6 (amended): every similarity score that is returned lies in
[0, 1], and for every text whose preprocessed form retains at least one
vectorizer term (a kept token of length at least two) the similarity of
the text with itself is exactly 1.  (The original claim only assumed one
alphabetic non-stop-word token; a text whose only kept tokens are single
characters is dropped by the vectorizer's token pattern and raises
`ValueError` instead.) -/
theorem claim_C6 :
    (∀ (nlp : NLP) (a b : String) (x : ℝ),
      calcSimilarity nlp a b = .ok x → 0 ≤ x ∧ x ≤ 1) ∧
    (∀ (nlp : NLP) (a : String), docTokens nlp a ≠ [] →
      calcSimilarity nlp a a = .ok 1) :=
  ⟨fun nlp a b x h => calcSimilarity_ok_bounds nlp a b x h,
   fun nlp a h => calcSimilarity_self nlp a h⟩

/-- C6 counterexample: the text "b" has a nonempty normalized form (one
alphabetic non-stop-word token), yet its self-similarity raises
`ValueError` instead of returning 1.0, because the vectorizer's token
pattern drops single-character tokens and the vocabulary is empty. -/
theorem claim_C6_cex :
    preTokens trivNlp "b" = ["b"] ∧
    calcSimilarity trivNlp "b" "b" = .error .valueError := by
  constructor
  · decide
  · simp only [calcSimilarity]
    rw [if_pos ⟨by decide, by decide⟩]

/-- C6 witness: the amended claim applied to concrete texts. -/
theorem claim_C6_witness :
    (0 ≤ cosSim (docTokens trivNlp "ab") (docTokens trivNlp "cd") ∧
      cosSim (docTokens trivNlp "ab") (docTokens trivNlp "cd") ≤ 1) ∧
    calcSimilarity trivNlp "hello" "hello" = .ok 1 := by
  refine ⟨claim_C6.1 trivNlp "ab" "cd" _ ?_, claim_C6.2 trivNlp "hello" (by decide)⟩
  simp only [calcSimilarity]
  rw [if_neg (by decide)]

/-- C7: `extract_title` tries the pattern rules in order -- quoted
"Title:" markup, unquoted "Title:", "Chapter N:" heading, leading "#"
heading -- and returns the stripped capture of the first rule that
matches (each later rule fires exactly when all earlier rules fail),
and the empty string when no rule matches; in particular the quoted
example yields "The Storm" and a text without title markers yields the
empty string. -/
theorem claim_C7 :
    extractTitle "Title: \"The Storm\"" = "The Storm" ∧
    extractTitle "no title markers here" = "" ∧
    (∀ o cap, reSearch patTitleQuoted o.data = some cap →
      extractTitle o = pyStrip (String.mk cap)) ∧
    (∀ o cap, reSearch patTitleQuoted o.data = none →
      reSearch patTitlePlain o.data = some cap →
      extractTitle o = pyStrip (String.mk cap)) ∧
    (∀ o cap, reSearch patTitleQuoted o.data = none →
      reSearch patTitlePlain o.data = none →
      reSearch patChapterHeading o.data = some cap →
      extractTitle o = pyStrip (String.mk cap)) ∧
    (∀ o cap, reSearch patTitleQuoted o.data = none →
      reSearch patTitlePlain o.data = none →
      reSearch patChapterHeading o.data = none →
      reSearch patHashHeading o.data = some cap →
      extractTitle o = pyStrip (String.mk cap)) ∧
    (∀ o, reSearch patTitleQuoted o.data = none →
      reSearch patTitlePlain o.data = none →
      reSearch patChapterHeading o.data = none →
      reSearch patHashHeading o.data = none →
      extractTitle o = "") := by
  refine ⟨by decide, by decide, ?_, ?_, ?_, ?_, ?_⟩
  · intro o cap h1
    simp [extractTitle, titlePatterns, extractTitleGo, h1]
  · intro o cap h1 h2
    simp [extractTitle, titlePatterns, extractTitleGo, h1, h2]
  · intro o cap h1 h2 h3
    simp [extractTitle, titlePatterns, extractTitleGo, h1, h2, h3]
  · intro o cap h1 h2 h3 h4
    simp [extractTitle, titlePatterns, extractTitleGo, h1, h2, h3, h4]
  · intro o h1 h2 h3 h4
    simp [extractTitle, titlePatterns, extractTitleGo, h1, h2, h3, h4]

/-- C7 witness: each rule clause applied to a concrete input on which
the earlier rules fail, plus the no-match clause. -/
theorem claim_C7_witness :
    extractTitle "Title: \"The Last Ember\" and more" =
      pyStrip (String.mk "The Last Ember".data) ∧
    extractTitle "Title: Plain One\nrest" = pyStrip (String.mk "Plain One".data) ∧
    extractTitle "Chapter 7: Embers" = pyStrip (String.mk "Embers".data) ∧
    extractTitle "# Heading Here" = pyStrip (String.mk "Heading Here".data) ∧
    extractTitle "plain prose with nothing special" = "" := by
  refine ⟨claim_C7.2.2.1 _ "The Last Ember".data (by decide),
    claim_C7.2.2.2.1 _ "Plain One".data (by decide) (by decide),
    claim_C7.2.2.2.2.1 _ "Embers".data (by decide) (by decide) (by decide),
    claim_C7.2.2.2.2.2.1 _ "Heading Here".data
      (by decide) (by decide) (by decide) (by decide),
    claim_C7.2.2.2.2.2.2 _ (by decide) (by decide) (by decide) (by decide)⟩

theorem assocUpsert_all {β : Type} (P : β → Bool) (l : List (String × β)) (k : String)
    (v : β) (hl : l.all (fun p => P p.2) = true) (hv : P v = true) :
    (assocUpsert l k v).all (fun p => P p.2) = true := by
  rw [assocUpsert]
  split_ifs with hk
  · rw [List.all_eq_true] at hl ⊢
    intro p hp
    obtain ⟨q, hq, rfl⟩ := List.mem_map.mp hp
    cases hq1 : (q.1 == k) with
    | true => simpa [hq1] using hv
    | false => simpa [hq1] using hl q hq
  · rw [List.all_eq_true] at hl ⊢
    intro p hp
    rcases List.mem_append.mp hp with h | h
    · exact hl p h
    · rw [List.mem_singleton] at h
      subst h
      exact hv

theorem mapReplace_all {β : Type} (P : β → Bool) (l : List (String × β)) (k : String)
    (v : β) (hl : l.all (fun p => P p.2) = true) (hv : P v = true) :
    (l.map (fun p => if p.1 == k then (p.1, v) else p)).all (fun p => P p.2) = true := by
  rw [List.all_eq_true] at hl ⊢
  intro p hp
  obtain ⟨q, hq, rfl⟩ := List.mem_map.mp hp
  cases hq1 : (q.1 == k) with
  | true => simpa [hq1] using hv
  | false => simpa [hq1] using hl q hq

theorem stepOk (m : CharacterManager) (op : CMOp) (hm : charsOk m = true)
    (hop : okOp m op = true) : charsOk (applyOp m op) = true := by
  cases op with
  | add c =>
    have hc' : ∀ c', (match c.first_appearance.toIntOpt with
        | some _ => c
        | none => { c with first_appearance := .int 0, last_appearance := .int 0 }) = c' →
        chOk c' = true := by
      intro c' hc
      cases hInt : c.first_appearance.toIntOpt with
      | none =>
        rw [hInt] at hc
        subst hc
        simp [chOk, chapNum, PyVal.toIntOpt]
      | some n =>
        rw [hInt] at hc
        subst hc
        rw [okOp, hInt] at hop
        simp only [Bool.or_eq_true] at hop
        rcases hop with hop | hop
        · exact absurd hop (by simp)
        · simp only [chOk, decide_eq_true_eq]
          exact Or.inr (Or.inr (of_decide_eq_true hop))
    simp only [applyOp, addCharacter, charsOk]
    exact assocUpsert_all chOk m.characters (pyLower c.name) _ hm (hc' _ rfl)
  | upd name chapter =>
    simp only [applyOp, updateAppearance]
    cases hget : getCharacter m (pyLower name) with
    | none => simpa [charsOk] using hm
    | some c =>
      rw [okOp, hget] at hop
      simp only [Bool.or_eq_true] at hop
      have hc' : chOk (if c.first_appearance.truthy then
          { c with last_appearance := .str chapter }
          else { c with first_appearance := .str chapter,
                        last_appearance := .str chapter }) = true := by
        cases htr : c.first_appearance.truthy with
        | false =>
          simp only [htr, if_neg Bool.false_ne_true]
          simp [chOk]
        | true =>
          rcases hop with hop | hop
          · rw [htr] at hop
            exact absurd hop (by simp)
          · simp only [htr, if_pos rfl]
            simp only [chOk, decide_eq_true_eq]
            exact Or.inr (Or.inr (of_decide_eq_true hop))
      simp only [charsOk]
      exact mapReplace_all chOk m.characters (pyLower (pyLower name)) _ hm hc'

/-- C5 (amended): the invariant `first_appearance <= last_appearance`
(read as chapter numbers, and vacuous until both are set) holds for
every character in the store after every sequence of `add_character` and
`update_appearance` operations, provided each added character either
fails integer parsing of `first_appearance` (and is coerced to unset) or
already satisfies first ≤ last (which holds for the characters built by
`initialize_characters`, since it copies first into last), and each
update uses a chapter number not below the target character's currently
set first appearance (as when chapters are processed in increasing order
from the first appearance on).  (The unconditional claim fails: an
update with a chapter below a stored first appearance leaves
first > last.) -/
theorem claim_C5 (m : CharacterManager) (ops : List CMOp) (hm : charsOk m = true)
    (ht : okTrace m ops = true) : charsOk (applyOps m ops) = true := by
  induction ops generalizing m with
  | nil => simpa [applyOps] using hm
  | cons op ops ih =>
    rw [okTrace, Bool.and_eq_true] at ht
    have h1 := stepOk m op hm ht.1
    show charsOk (applyOps (applyOp m op) ops) = true
    exact ih (applyOp m op) h1 ht.2

/-- C5 counterexample: a character added with first and last appearance
"5" and then updated with chapter "3" ends with both fields set and
first_appearance = 5 > 3 = last_appearance, violating the unconditional
invariant. -/
theorem claim_C5_cex :
    charsOk (applyOps ⟨[], []⟩
      [CMOp.add ⟨"x", "", "", "", [], [], .str "5", .str "5", ""⟩,
       CMOp.upd "x" "3"]) = false := by
  decide

/-- C5 witness: the amended claim applied to a concrete trace with
increasing update chapters. -/
theorem claim_C5_witness :
    charsOk (applyOps ⟨[], []⟩
      [CMOp.add ⟨"y", "", "", "", [], [], .str "2", .str "2", ""⟩,
       CMOp.upd "y" "3", CMOp.upd "y" "4"]) = true :=
  claim_C5 ⟨[], []⟩ _ (by decide) (by decide)

/-- C8: adding a character whose `first_appearance` is a non-numeric
string does not raise; it stores the character under the lower-cased
name (overwriting any same-named entry, as `assocUpsert` does) with both
appearance fields coerced to the integer 0. -/
theorem claim_C8 (m : CharacterManager) (c : Character) (s : String)
    (hs : c.first_appearance = PyVal.str s) (hp : pyStrToInt s = none) :
    addCharacter m c =
      { m with characters :=
          (assocUpsert m.characters (pyLower c.name)
            { c with first_appearance := PyVal.int 0, last_appearance := PyVal.int 0 }) } := by
  simp [addCharacter, hs, PyVal.toIntOpt, hp]

/-- C8 witness: the theorem applied to a concrete malformed character. -/
theorem claim_C8_witness :
    addCharacter ⟨[], []⟩
      ⟨"X", "r", "d", "p", [("a", "b")], ["t"], .str "not-a-number", .str "2", "arc"⟩ =
      ⟨[("x", ⟨"X", "r", "d", "p", [("a", "b")], ["t"], .int 0, .int 0, "arc"⟩)], []⟩ := by
  rw [claim_C8 ⟨[], []⟩ _ "not-a-number" rfl (by decide)]
  decide

/-- C9: deserializing the document produced by serializing a character
store yields exactly the original character mapping and mention table,
for every prior in-memory state (deserialization fully replaces it). -/
theorem claim_C9 (m prior : CharacterManager) : fromDict prior (toDict m) = m := by
  cases m with
  | mk chars mentions =>
    have hmap : ∀ l : List (String × Character),
        (l.map (fun p => (p.1, charAsDict p.2))).map (fun p => (p.1, charOfDict p.2)) = l := by
      intro l
      induction l with
      | nil => rfl
      | cons hd tl ih =>
        have hc : charOfDict (charAsDict hd.2) = hd.2 := by
          cases hd.2
          rfl
        simp [ih, hc]
    simp only [toDict, fromDict]
    rw [hmap chars]

/-- C10: for every chapter index other than the module-level
`num_chapters` (15), `generate_chapter_outline` reads the local variable
`extra_instructions` before it has been assigned and raises `NameError`
before any outline is produced (whatever the generation oracle would
return), while the final chapter's call can complete, as a concrete
run with chapter 15 shows. -/
theorem claim_C10 :
    (∀ (nlp : NLP) (gen : Nat → String) (st : RState) (premise : String)
      (chapterNum : Nat), chapterNum ≠ numChapters →
      generateChapterOutline nlp gen st premise chapterNum = .error .nameError) ∧
    generateChapterOutline trivNlp (fun _ => "An outline") ⟨[], []⟩ "p" 15 =
      .ok ("An outline", ⟨[(15, "An outline")], []⟩) := by
  constructor
  · intro nlp gen st premise chapterNum h
    simp [generateChapterOutline, genLoop, h]
  · have hx : extractTitle "An outline" = "" := by decide
    simp [generateChapterOutline, numChapters, genLoop, reviewOutline_empty, hx, dictInsert]

/-- C10 witness: the first clause applied to a non-final chapter. -/
theorem claim_C10_witness :
    generateChapterOutline trivNlp (fun _ => "o") ⟨[], []⟩ "p" 1 = .error .nameError :=
  claim_C10.1 trivNlp (fun _ => "o") ⟨[], []⟩ "p" 1 (by decide)
